import Mathlib

/-!
Shallow embedding of `src/jsx_vector/jsx_vector_manager.py` (class
`JSXVectorManager`) and proofs about its specification.

Source texts are modelled as `List Char` (named `Str` below); Python
substring tests (`pat in s`), non-overlapping substring counts
(`s.count(pat)`) and `str.lower()` are modelled by executable functions on
character lists.  The two external collaborators (embedding provider and
vector search client) are modelled as function parameters returning
`Except`, an exception being the `.error` case.
-/

namespace JsxVector

/-- Character-list model of Python strings. -/
abbrev Str := List Char

/-- Python `s.lower()` (ASCII range, which covers every pattern the code
compares against). -/
def lowerStr (s : Str) : Str := s.map Char.toLower

/-- Python `pat in s` (substring containment) for a nonempty pattern. -/
def hasSub (pat : Str) : Str → Bool
  | [] => pat.isEmpty
  | c :: rest => pat.isPrefixOf (c :: rest) || hasSub pat rest

/-- Fuel-driven core of `countSub`; the fuel is the length of the scanned
text, which suffices because each step consumes at least one character. -/
def countSubAux (pat : Str) : Nat → Str → Nat
  | 0, _ => 0
  | _, [] => 0
  | fuel + 1, c :: rest =>
    if pat.isPrefixOf (c :: rest) then
      1 + countSubAux pat fuel (rest.drop (pat.length - 1))
    else
      countSubAux pat fuel rest

/-- Python `s.count(pat)`: number of non-overlapping occurrences of `pat`
in `s`, scanning left to right (for a nonempty pattern). -/
def countSub (pat s : Str) : Nat := countSubAux pat s.length s

/-- Index of the first occurrence of a nonempty pattern, if any. -/
def firstOcc (pat : Str) : Str → Option Nat
  | [] => none
  | c :: rest =>
    if pat.isPrefixOf (c :: rest) then some 0
    else (firstOcc pat rest).map (· + 1)

/-- Python `sep.join(xs)`. -/
def joinSep (sep : Str) : List Str → Str
  | [] => []
  | [x] => x
  | x :: y :: rest => x ++ sep ++ joinSep sep (y :: rest)

/-- Fuel-driven core of `replaceSub`. -/
def replaceSubAux (pat rep : Str) : Nat → Str → Str
  | 0, s => s
  | _, [] => []
  | fuel + 1, c :: rest =>
    if pat.isPrefixOf (c :: rest) then
      rep ++ replaceSubAux pat rep fuel (rest.drop (pat.length - 1))
    else
      c :: replaceSubAux pat rep fuel rest

/-- Python `s.replace(pat, rep)` for a nonempty pattern: replace every
non-overlapping occurrence, scanning left to right. -/
def replaceSub (pat rep s : Str) : Str := replaceSubAux pat rep s.length s

/-!
Pattern extractors (`_classify_component_category`,
`_analyze_image_patterns`, `_analyze_text_patterns`,
`_analyze_layout_patterns`, `_analyze_jsx_structure`,
`_generate_component_metadata`, code lines 341-544).
-/

/-- Result record of `_analyze_image_patterns`. -/
structure ImagePatterns where
  count : Nat
  arrangement : Str
  sizing : Str
deriving DecidableEq

/-- Translation of `_analyze_image_patterns` (lines 369-397). -/
def analyze_image_patterns (jsx_code : Str) : ImagePatterns :=
  let img_count := countSub "<img".toList jsx_code
  let arrangement : Str :=
    if hasSub "grid".toList (lowerStr jsx_code) then "grid".toList
    else if hasSub "flex".toList (lowerStr jsx_code) ∧ img_count > 1 then "flex".toList
    else if img_count = 1 then "single".toList
    else if img_count > 3 then "gallery".toList
    else "multiple".toList
  let sizing : Str :=
    if hasSub "width: '100%'".toList jsx_code then "responsive".toList
    else if hasSub "aspect-".toList jsx_code then "aspect_ratio".toList
    else "fixed".toList
  { count := img_count, arrangement := arrangement, sizing := sizing }

/-- Translation of `_classify_component_category` (lines 341-367). -/
def classify_component_category (component_name jsx_code : Str) : Str :=
  let name_lower := lowerStr component_name
  if hasSub "image".toList name_lower then "image_focused".toList
  else if hasSub "text".toList name_lower then "text_focused".toList
  else if hasSub "mixed".toList name_lower then "mixed".toList
  else if hasSub "card".toList name_lower then "card_based".toList
  else if hasSub "list".toList name_lower then "list_based".toList
  else if hasSub "dashboard".toList name_lower then "dashboard".toList
  else
    let img_count := countSub "<img".toList jsx_code
    let text_elements :=
      countSub "<h1".toList jsx_code + countSub "<h2".toList jsx_code +
        countSub "<p".toList jsx_code
    if img_count > text_elements then "image_focused".toList
    else if text_elements > img_count * 2 then "text_focused".toList
    else "mixed".toList

/-- Result record of `_analyze_text_patterns`; the `typography` field of the
Python dict (a regex scrape deduplicated through an unordered Python set) is
omitted: no claim concerns it and its element order is unspecified. -/
structure TextPatterns where
  hierarchy : List Str
  alignment : Str
deriving DecidableEq

/-- Translation of `_analyze_text_patterns` (lines 399-428), hierarchy and
alignment fields. -/
def analyze_text_patterns (jsx_code : Str) : TextPatterns :=
  let hierarchy : List Str :=
    (if hasSub "<h1".toList jsx_code then ["h1".toList] else []) ++
    (if hasSub "<h2".toList jsx_code then ["h2".toList] else []) ++
    (if hasSub "<h3".toList jsx_code then ["h3".toList] else []) ++
    (if hasSub "<p".toList jsx_code then ["p".toList] else [])
  let alignment : Str :=
    if hasSub "textAlign: 'center'".toList jsx_code then "center".toList
    else if hasSub "textAlign: 'right'".toList jsx_code then "right".toList
    else "left".toList
  { hierarchy := hierarchy, alignment := alignment }

/-- Result record of `_analyze_layout_patterns`. -/
structure LayoutPatterns where
  method : Str
  responsive : Str
deriving DecidableEq

/-- Translation of `_analyze_layout_patterns` (lines 430-450). -/
def analyze_layout_patterns (jsx_code : Str) : LayoutPatterns :=
  let method : Str :=
    if hasSub "display: 'grid'".toList jsx_code then "grid".toList
    else if hasSub "display: 'flex'".toList jsx_code then "flexbox".toList
    else if hasSub "position: 'absolute'".toList jsx_code then "absolute".toList
    else "block".toList
  let responsive : Str :=
    if hasSub "@media".toList jsx_code ∨ hasSub "responsive".toList (lowerStr jsx_code) then
      "responsive".toList
    else "fixed".toList
  { method := method, responsive := responsive }

/-- Result record of `_analyze_jsx_structure`. -/
structure StructurePatterns where
  hooks_used : List Str
  children_structure : Str
deriving DecidableEq

/-- Translation of `_analyze_jsx_structure` (lines 473-496); the constant
fields component_type = "functional" and props_pattern = "simple" are left
implicit. -/
def analyze_jsx_structure (jsx_code : Str) : StructurePatterns :=
  let hooks_used : List Str :=
    (if hasSub "useState".toList jsx_code then ["useState".toList] else []) ++
    (if hasSub "useEffect".toList jsx_code then ["useEffect".toList] else []) ++
    (if hasSub "memo".toList jsx_code then ["memo".toList] else [])
  let children_structure : Str :=
    if countSub "<div".toList jsx_code > 3 then "nested".toList
    else if hasSub "?".toList jsx_code ∧ hasSub ":".toList jsx_code then
      "conditional".toList
    else "single".toList
  { hooks_used := hooks_used, children_structure := children_structure }

/-- Result record of `_generate_component_metadata`. -/
structure ComponentMetadata where
  complexity : Str
  reusability : ℚ
  mobile_optimized : Bool
deriving DecidableEq

/-- Complexity score of `_generate_component_metadata` (lines 520-525); the
Python float arithmetic is modelled exactly over the rationals (every value
involved here is a small decimal). -/
def complexity_score (jsx_code : Str) : ℚ :=
  (countSub "<div".toList jsx_code : ℚ) * 0.5 +
  (countSub "<img".toList jsx_code : ℚ) * 1.0 +
  (countSub "style=".toList jsx_code : ℚ) * 0.3 +
  (countSub "className=".toList jsx_code : ℚ) * 0.2

/-- Translation of `_generate_component_metadata` (lines 517-544). -/
def generate_component_metadata (jsx_code : Str) (category : Str) : ComponentMetadata :=
  let complexity : Str :=
    if complexity_score jsx_code < 5 then "simple".toList
    else if complexity_score jsx_code < 15 then "moderate".toList
    else "complex".toList
  let reusability : ℚ :=
    if category = "image_focused".toList ∨ category = "text_focused".toList then 0.8
    else 0.6
  let mobile_optimized : Bool :=
    hasSub "responsive".toList (lowerStr jsx_code) || hasSub "mobile".toList (lowerStr jsx_code)
  { complexity := complexity, reusability := reusability,
    mobile_optimized := mobile_optimized }

/-- Export-pattern half of `_analyze_code_patterns` (lines 506-510); the
imports field (a regex scrape) is omitted: no claim concerns it. -/
def analyze_code_patterns_export (jsx_code : Str) : Str :=
  if hasSub "export default".toList jsx_code then "default_export".toList
  else "named_export".toList

/-- Translation of `_generate_search_keywords` (lines 546-559). -/
def generate_search_keywords (category : Str) (image_patterns : ImagePatterns)
    (text_patterns : TextPatterns) (layout_patterns : LayoutPatterns) : Str :=
  joinSep " ".toList
    ([category,
      "images_".toList ++ (Nat.repr image_patterns.count).toList,
      image_patterns.arrangement,
      layout_patterns.method,
      text_patterns.alignment] ++ text_patterns.hierarchy)

/-!
Document-key sanitizer `_create_safe_jsx_key` (lines 588-592).
-/

/-- Character class `[a-zA-Z0-9_\-=]` of the first regex in
`_create_safe_jsx_key`. -/
def isSafeKeyChar (c : Char) : Bool :=
  ('a' ≤ c && c ≤ 'z') || ('A' ≤ c && c ≤ 'Z') || ('0' ≤ c && c ≤ '9') ||
    c == '_' || c == '-' || c == '='

/-- Python re.sub replacing every character outside the safe class with an
underscore. -/
def replaceUnsafe (s : Str) : Str :=
  s.map (fun c => if isSafeKeyChar c then c else '_')

/-- Python re.sub collapsing every maximal run of underscores to a single
underscore. -/
def collapseUnderscores : Str → Str
  | [] => []
  | [c] => [c]
  | c :: d :: rest =>
    if c = '_' ∧ d = '_' then collapseUnderscores (d :: rest)
    else c :: collapseUnderscores (d :: rest)

/-- Python `s.strip('_')`: drop leading and trailing underscores. -/
def stripUnderscores (s : Str) : Str :=
  ((s.dropWhile (· == '_')).reverse.dropWhile (· == '_')).reverse

/-- Translation of `_create_safe_jsx_key` (lines 588-592). -/
def create_safe_jsx_key (component_name : Str) : Str :=
  let safe1 := replaceUnsafe component_name
  let safe2 := stripUnderscores (collapseUnderscores safe1)
  if safe2.length > 100 then safe2.take 100 else safe2

/-!
Analysis aggregation (`_extract_jsx_patterns`, lines 299-339) and the
embedding-text composer (`_create_jsx_embedding_text`, lines 561-574).
-/

/-- Aggregated analysis record built by `_extract_jsx_patterns`; the
tailwind dict and the imports list (regex scrapes deduplicated through
unordered Python sets) are omitted: no claim concerns them. -/
structure JsxAnalysis where
  category : Str
  images : ImagePatterns
  text : TextPatterns
  layout : LayoutPatterns
  structure_ : StructurePatterns
  export_pattern : Str
  metadata : ComponentMetadata
  keywords : Str
deriving DecidableEq

/-- Translation of `_extract_jsx_patterns` (lines 299-339). -/
def extract_jsx_patterns (jsx_code component_name : Str) : JsxAnalysis :=
  let category := classify_component_category component_name jsx_code
  let image_patterns := analyze_image_patterns jsx_code
  let text_patterns := analyze_text_patterns jsx_code
  let layout_patterns := analyze_layout_patterns jsx_code
  let structure_patterns := analyze_jsx_structure jsx_code
  let metadata := generate_component_metadata jsx_code category
  let keywords :=
    generate_search_keywords category image_patterns text_patterns layout_patterns
  { category := category, images := image_patterns, text := text_patterns,
    layout := layout_patterns, structure_ := structure_patterns,
    export_pattern := analyze_code_patterns_export jsx_code,
    metadata := metadata, keywords := keywords }

/-- Translation of `_create_jsx_embedding_text` (lines 561-574). -/
def create_jsx_embedding_text (analysis : JsxAnalysis) : Str :=
  joinSep " ".toList
    ["Component category: ".toList ++ analysis.category,
     "Layout method: ".toList ++ analysis.layout.method,
     "Images: ".toList ++ (Nat.repr analysis.images.count).toList ++
       " ".toList ++ analysis.images.arrangement,
     "Text hierarchy: ".toList ++ joinSep " ".toList analysis.text.hierarchy,
     "Responsive: ".toList ++ analysis.layout.responsive,
     "Complexity: ".toList ++ analysis.metadata.complexity,
     "Alignment: ".toList ++ analysis.text.alignment,
     "Keywords: ".toList ++ analysis.keywords]

/-!
External collaborators.  The embedding provider and search client are
modelled as functions returning `Except Str`, the `.error` case standing
for a raised exception.
-/

/-- Type of the embedding provider (wraps `openai_client.embeddings.create`). -/
abbrev EmbeddingProvider := Str → Except Str (List ℚ)

/-- Translation of `_create_jsx_embedding` (lines 576-586): a raised
exception is caught and replaced by the 1536-dimensional zero vector. -/
def create_jsx_embedding (provider : EmbeddingProvider) (text : Str) : List ℚ :=
  match provider text with
  | .ok v => v
  | .error _ => List.replicate 1536 0.0

/-!
Search pipeline (`search_jsx_components`, lines 629-690).
-/

/-- Raw hit as returned by the external search client (the fields listed in
the select clause of the search parameters, plus the relevance score). -/
structure RawHit where
  id : Str
  component_name : Str
  component_category : Str
  jsx_structure : Str
  layout_method : Str
  image_count : Nat
  image_arrangement : Str
  complexity_level : Str
  jsx_code : Str
  search_keywords : Str
  score : ℚ
deriving DecidableEq

/-- Per-hit record assembled by `search_jsx_components` (lines 672-683). -/
structure ComponentData where
  id : Str
  component_name : Str
  category : Str
  layout_method : Str
  image_count : Nat
  image_arrangement : Str
  complexity : Str
  jsx_code : Str
  keywords : Str
  score : ℚ
deriving DecidableEq

/-- Field renaming performed per result inside the search loop. -/
def toComponentData (r : RawHit) : ComponentData :=
  { id := r.id, component_name := r.component_name,
    category := r.component_category, layout_method := r.layout_method,
    image_count := r.image_count, image_arrangement := r.image_arrangement,
    complexity := r.complexity_level, jsx_code := r.jsx_code,
    keywords := r.search_keywords, score := r.score }

/-- Parameters handed to the external search client: query vector,
k-nearest-neighbours bound, top bound and the optional filter string. -/
structure SearchParams where
  vector : List ℚ
  k_nearest_neighbors : Nat
  top : Nat
  filter : Option Str
deriving DecidableEq

/-- Type of the external search client (wraps `search_client.search`). -/
abbrev SearchClient := SearchParams → Except Str (List RawHit)

/-- Filter list built from the optional arguments (lines 656-662). -/
def buildFilters (category : Option Str) (image_count : Option Int)
    (complexity : Option Str) : List Str :=
  (match category with
   | some c => ["component_category eq '".toList ++ c ++ "'".toList]
   | none => []) ++
  (match image_count with
   | some n => ["image_count eq ".toList ++ (Int.repr n).toList]
   | none => []) ++
  (match complexity with
   | some c => ["complexity_level eq '".toList ++ c ++ "'".toList]
   | none => [])

/-- Search parameters assembled by `search_jsx_components` before the
client call (lines 638-665). -/
def searchParamsFor (query_embedding : List ℚ) (category : Option Str)
    (image_count : Option Int) (complexity : Option Str) (top_k : Nat) :
    SearchParams :=
  let filters := buildFilters category image_count complexity
  { vector := query_embedding, k_nearest_neighbors := top_k * 2,
    top := top_k * 2,
    filter := if filters = [] then none else some (joinSep " and ".toList filters) }

/-- Translation of `search_jsx_components` (lines 629-690): embed the query
(the embedding helper never raises), call the external client, convert each
hit, truncate to top_k; an exception from the client is caught and yields
the empty list. -/
def search_jsx_components (provider : EmbeddingProvider) (client : SearchClient)
    (query_text : Str) (category : Option Str) (image_count : Option Int)
    (complexity : Option Str) (top_k : Nat) : List ComponentData :=
  let query_embedding := create_jsx_embedding provider query_text
  match client (searchParamsFor query_embedding category image_count complexity top_k) with
  | .ok results => (results.map toComponentData).take top_k
  | .error _ => []

/-!
Batch ingestion (`_analyze_jsx_component`, lines 229-297, and the file
loop of `process_jsx_components`, lines 202-227).
-/

/-- Indexed document assembled by `_analyze_jsx_component` (lines 251-291);
the JSON-serialized tailwind/typography/imports fields are omitted, matching
the omissions in `JsxAnalysis`. -/
structure JsxDocument where
  id : Str
  component_name : Str
  component_category : Str
  layout_method : Str
  responsive_strategy : Str
  image_count : Nat
  image_arrangement : Str
  image_sizing : Str
  text_hierarchy : List Str
  text_alignment : Str
  complexity_level : Str
  reusability_score : ℚ
  mobile_optimized : Bool
  jsx_code : Str
  export_pattern : Str
  search_keywords : Str
  embedding_text : Str
  jsx_vector : List ℚ
deriving DecidableEq

/-- Type of the file reader (wraps `open(...).read()`); the `.error` case
stands for a raised OS exception. -/
abbrev FileReader := Str → Except Str Str

/-- Translation of `_analyze_jsx_component` (lines 229-297): every
exception inside the body is caught and turned into `none`; in this
embedding the only failing step is the file read, since the extractors are
total and the embedding helper catches its own provider failure. -/
def analyze_jsx_component (provider : EmbeddingProvider) (read_file : FileReader)
    (jsx_path jsx_file : Str) : Option JsxDocument :=
  match read_file jsx_path with
  | .error _ => none
  | .ok jsx_code =>
    let component_name := replaceSub ".jsx".toList [] jsx_file
    let analysis := extract_jsx_patterns jsx_code component_name
    let embedding_text := create_jsx_embedding_text analysis
    let vector := create_jsx_embedding provider embedding_text
    let doc_id := create_safe_jsx_key component_name
    some
      { id := doc_id, component_name := component_name,
        component_category := analysis.category,
        layout_method := analysis.layout.method,
        responsive_strategy := analysis.layout.responsive,
        image_count := analysis.images.count,
        image_arrangement := analysis.images.arrangement,
        image_sizing := analysis.images.sizing,
        text_hierarchy := analysis.text.hierarchy,
        text_alignment := analysis.text.alignment,
        complexity_level := analysis.metadata.complexity,
        reusability_score := analysis.metadata.reusability,
        mobile_optimized := analysis.metadata.mobile_optimized,
        jsx_code := jsx_code, export_pattern := analysis.export_pattern,
        search_keywords := analysis.keywords,
        embedding_text := embedding_text, jsx_vector := vector }

/-- File loop of `process_jsx_components` (lines 202-216): accumulate the
documents of the successful files in order, and count the files whose
analysis produced no document (each such file is reported by a log line in
the source). -/
def processLoop (analyze : Str → Option JsxDocument) : List Str → List JsxDocument × Nat
  | [] => ([], 0)
  | f :: rest =>
    match analyze f with
    | some d => (d :: (processLoop analyze rest).1, (processLoop analyze rest).2)
    | none => ((processLoop analyze rest).1, (processLoop analyze rest).2 + 1)

/-- Outcome of a batch run: the documents handed to the upload call, whether
the upload call was made (it is skipped when no document was assembled), and
the number of per-file failures. -/
structure ProcessOutcome where
  uploaded : List JsxDocument
  upload_called : Bool
  analyze_failures : Nat
deriving DecidableEq

/-- Translation of the batch phase of `process_jsx_components` (lines
202-227): each file is analyzed in turn, failures are skipped, and the
accumulated documents are uploaded in a single call when nonempty. -/
def process_jsx_components (provider : EmbeddingProvider) (read_file : FileReader)
    (components_folder : Str) (jsx_files : List Str) : ProcessOutcome :=
  let analyze := fun f =>
    analyze_jsx_component provider read_file (components_folder ++ '/' :: f) f
  { uploaded := (processLoop analyze jsx_files).1,
    upload_called := !(processLoop analyze jsx_files).1.isEmpty,
    analyze_failures := (processLoop analyze jsx_files).2 }

/-!
Specification-side restatements.  Each definition below follows the words
of a spec sentence (not the code) and exists only to be compared with the
corresponding source-derived definition above.
-/

/-- Specification-side restatement of the image-arrangement precedence, in
the words of the spec: grid keyword anywhere (case-insensitive) beats
flex-with-multiple-images, which beats count-equals-one giving single,
which beats count-above-three giving gallery, falling back to multiple. -/
def specArrangement (t : Str) : Str :=
  if hasSub "grid".toList (lowerStr t) then "grid".toList
  else if hasSub "flex".toList (lowerStr t) ∧ countSub "<img".toList t > 1 then
    "flex".toList
  else if countSub "<img".toList t = 1 then "single".toList
  else if countSub "<img".toList t > 3 then "gallery".toList
  else "multiple".toList

/-- Specification-side restatement of the name-keyword classification: the
keywords image, text, mixed, card, list, dashboard checked in that fixed
order against the lowercased name, mapped to their enum values; none when
no keyword occurs. -/
def specKeywordCategory (component_name : Str) : Option Str :=
  let nl := lowerStr component_name
  if hasSub "image".toList nl then some "image_focused".toList
  else if hasSub "text".toList nl then some "text_focused".toList
  else if hasSub "mixed".toList nl then some "mixed".toList
  else if hasSub "card".toList nl then some "card_based".toList
  else if hasSub "list".toList nl then some "list_based".toList
  else if hasSub "dashboard".toList nl then some "dashboard".toList
  else none

/-- Insertion into a list of tags kept sorted by a numeric key. -/
def insertByKey (key : Str → Nat) (x : Str) : List Str → List Str
  | [] => [x]
  | y :: ys => if key x ≤ key y then x :: y :: ys else y :: insertByKey key x ys

/-- Insertion sort of tags by a numeric key. -/
def sortByKey (key : Str → Nat) : List Str → List Str
  | [] => []
  | x :: xs => insertByKey key x (sortByKey key xs)

/-- Specification-side restatement of the claimed text hierarchy: the
heading and paragraph tags occurring in the text, ordered by the position
of their first occurrence (scan order), duplicates excluded. -/
def specScanHierarchy (jsx_code : Str) : List Str :=
  let tags : List Str := ["h1".toList, "h2".toList, "h3".toList, "p".toList]
  let present := tags.filter (fun t => hasSub ('<' :: t) jsx_code)
  sortByKey (fun t => (firstOcc ('<' :: t) jsx_code).getD 0) present

/-- Specification-side restatement of the complexity score formula as the
spec writes it. -/
def specComplexityScore (t : Str) : ℚ :=
  0.5 * (countSub "<div".toList t : ℚ) + 1.0 * (countSub "<img".toList t : ℚ) +
    0.3 * (countSub "style=".toList t : ℚ) + 0.2 * (countSub "className=".toList t : ℚ)

/-!
Concrete collaborator instances, used to instantiate the theorems about the
external-call paths.
-/

/-- An embedding provider that always raises. -/
def failingProvider : EmbeddingProvider := fun _ => .error "embedding failure".toList

/-- A fixed raw hit returned by the stub search client. -/
def stubHit : RawHit :=
  { id := "doc1".toList, component_name := "Doc1".toList,
    component_category := "mixed".toList, jsx_structure := [],
    layout_method := "block".toList, image_count := 0,
    image_arrangement := "multiple".toList, complexity_level := "simple".toList,
    jsx_code := [], search_keywords := [], score := 1 }

/-- A search client that returns one hit whatever the query vector. -/
def stubClient : SearchClient := fun _ => .ok [stubHit]

/-- A file reader that fails on one path and succeeds elsewhere. -/
def stubReader : FileReader := fun p =>
  if p = "components/bad.jsx".toList then .error "io error".toList
  else .ok "<img".toList

/-!
Helper lemmas.
-/

/-- A text with no occurrence of the pattern has substring count zero,
whatever the fuel. -/
theorem countSubAux_eq_zero (pat : Str) :
    ∀ (fuel : Nat) (s : Str), hasSub pat s = false → countSubAux pat fuel s = 0
  | 0, s, _ => by cases s <;> rfl
  | _ + 1, [], _ => rfl
  | fuel + 1, c :: rest, h => by
    have h' : pat.isPrefixOf (c :: rest) = false ∧ hasSub pat rest = false := by
      simpa [hasSub] using h
    simp [countSubAux, h'.1, countSubAux_eq_zero pat fuel rest h'.2]

/-- A text with no occurrence of the pattern has substring count zero. -/
theorem countSub_eq_zero (pat s : Str) (h : hasSub pat s = false) :
    countSub pat s = 0 :=
  countSubAux_eq_zero pat s.length s h

/-- Detector for a doubled underscore somewhere in the string. -/
def hasDoubledUnderscore : Str → Bool
  | c :: d :: rest => (c == '_' && d == '_') || hasDoubledUnderscore (d :: rest)
  | _ => false

/-- Detector for a leading underscore. -/
def firstIsUnderscore : Str → Bool
  | [] => false
  | c :: _ => c == '_'

/-- A name that is already a valid key: only characters of the safe class,
no doubled underscore, no leading or trailing underscore, at most 100
characters. -/
def isCanonicalKey (l : Str) : Bool :=
  l.all isSafeKeyChar && !hasDoubledUnderscore l && !firstIsUnderscore l &&
    !firstIsUnderscore l.reverse && decide (l.length ≤ 100)

/-- Replacing unsafe characters is the identity on all-safe strings. -/
theorem replaceUnsafe_eq_self :
    ∀ (l : Str), l.all isSafeKeyChar = true → replaceUnsafe l = l
  | [], _ => rfl
  | c :: rest, h => by
    have h' : isSafeKeyChar c = true ∧ rest.all isSafeKeyChar = true := by
      simpa using h
    have ih := replaceUnsafe_eq_self rest h'.2
    simp only [replaceUnsafe] at ih ⊢
    simp [h'.1, ih]

/-- Collapsing underscore runs is the identity when no doubled underscore
occurs. -/
theorem collapseUnderscores_eq_self :
    ∀ (l : Str), hasDoubledUnderscore l = false → collapseUnderscores l = l
  | [], _ => rfl
  | [_], _ => rfl
  | c :: d :: rest, h => by
    have h0 : ((c == '_' && d == '_') || hasDoubledUnderscore (d :: rest)) = false := h
    have h1 : (c == '_' && d == '_') = false := by
      cases hcd : (c == '_' && d == '_') <;> simp_all
    have h2 : hasDoubledUnderscore (d :: rest) = false := by
      cases hdd : hasDoubledUnderscore (d :: rest) <;> simp_all
    have hne : ¬(c = '_' ∧ d = '_') := by
      intro hcd
      simp [hcd.1, hcd.2] at h1
    simp only [collapseUnderscores, if_neg hne]
    exact congrArg (c :: ·) (collapseUnderscores_eq_self (d :: rest) h2)

/-- Dropping leading underscores is the identity when the first character
is not an underscore. -/
theorem dropWhileUnderscore_eq_self (l : Str) (h : firstIsUnderscore l = false) :
    l.dropWhile (· == '_') = l := by
  cases l with
  | nil => rfl
  | cons c rest =>
    have hc : (c == '_') = false := by simpa [firstIsUnderscore] using h
    simp [List.dropWhile_cons, hc]

/-- Stripping underscores is the identity when neither end carries one. -/
theorem stripUnderscores_eq_self (l : Str) (h1 : firstIsUnderscore l = false)
    (h2 : firstIsUnderscore l.reverse = false) : stripUnderscores l = l := by
  unfold stripUnderscores
  rw [dropWhileUnderscore_eq_self l h1, dropWhileUnderscore_eq_self l.reverse h2,
    List.reverse_reverse]

/-- The sanitizer is the identity on canonical keys. -/
theorem create_safe_jsx_key_eq_self (l : Str) (h : isCanonicalKey l = true) :
    create_safe_jsx_key l = l := by
  have h' := h
  unfold isCanonicalKey at h'
  simp only [Bool.and_eq_true, Bool.not_eq_true', decide_eq_true_eq] at h'
  obtain ⟨⟨⟨⟨hall, hdbl⟩, hfst⟩, hlst⟩, hlen⟩ := h'
  have key : create_safe_jsx_key l =
      if (stripUnderscores (collapseUnderscores (replaceUnsafe l))).length > 100 then
        (stripUnderscores (collapseUnderscores (replaceUnsafe l))).take 100
      else stripUnderscores (collapseUnderscores (replaceUnsafe l)) := rfl
  rw [key, replaceUnsafe_eq_self l hall, collapseUnderscores_eq_self l hdbl,
    stripUnderscores_eq_self l hfst hlst]
  rw [if_neg (by omega : ¬ l.length > 100)]

/-- The documents accumulated by the batch loop are exactly the successful
analyses, in file order. -/
theorem processLoop_docs (analyze : Str → Option JsxDocument) :
    ∀ files : List Str, (processLoop analyze files).1 = files.filterMap analyze
  | [] => rfl
  | f :: rest => by
    cases hf : analyze f <;>
      simp [processLoop, hf, processLoop_docs analyze rest]

/-- Failure count plus document count equals file count. -/
theorem processLoop_count (analyze : Str → Option JsxDocument) :
    ∀ files : List Str,
      (processLoop analyze files).2 + (processLoop analyze files).1.length = files.length
  | [] => rfl
  | f :: rest => by
    have ih := processLoop_count analyze rest
    cases hf : analyze f <;> simp [processLoop, hf] <;> omega

/-- The batch loop distributes over list concatenation. -/
theorem processLoop_append (analyze : Str → Option JsxDocument) :
    ∀ l1 l2 : List Str,
      (processLoop analyze (l1 ++ l2)).1 =
        (processLoop analyze l1).1 ++ (processLoop analyze l2).1 ∧
      (processLoop analyze (l1 ++ l2)).2 =
        (processLoop analyze l1).2 + (processLoop analyze l2).2
  | [], l2 => by simp [processLoop]
  | f :: rest, l2 => by
    have ih := processLoop_append analyze rest l2
    cases hf : analyze f <;> simp [processLoop, hf, ih.1, ih.2]
    omega

/-- The classifier equals the keyword classification when a name keyword
occurs, and the content heuristic otherwise. -/
theorem classify_eq_keyword_or_heuristic (name t : Str) :
    classify_component_category name t =
      (specKeywordCategory name).getD
        (if countSub "<img".toList t >
            countSub "<h1".toList t + countSub "<h2".toList t + countSub "<p".toList t then
          "image_focused".toList
         else if countSub "<h1".toList t + countSub "<h2".toList t + countSub "<p".toList t >
            countSub "<img".toList t * 2 then
          "text_focused".toList
         else "mixed".toList) := by
  simp only [classify_component_category, specKeywordCategory]
  cases hasSub "image".toList (lowerStr name) <;>
    cases hasSub "text".toList (lowerStr name) <;>
    cases hasSub "mixed".toList (lowerStr name) <;>
    cases hasSub "card".toList (lowerStr name) <;>
    cases hasSub "list".toList (lowerStr name) <;>
    cases hasSub "dashboard".toList (lowerStr name) <;> rfl

/-!
Claim theorems.
-/

/-- C1 counterexample: an embedding provider that raises does not make
search_jsx_components return the empty list — the exception is caught
inside the embedding helper, the search proceeds with the zero vector, and
a client that matches the zero vector yields a nonempty result. -/
theorem c1_search_embedding_failure_counterexample :
    failingProvider "query".toList = Except.error "embedding failure".toList ∧
    search_jsx_components failingProvider stubClient "query".toList none none none 5 =
      [toComponentData stubHit] ∧
    ([toComponentData stubHit] : List ComponentData) ≠ [] :=
  ⟨rfl, rfl, by simp⟩

/-- C1 amended: when the embedding provider raises during
search_jsx_components, the helper substitutes the 1536-dimensional zero
vector and the call behaves exactly as with a provider returning the zero
vector; in particular it never raises to the caller, but it may return
matches. -/
theorem c1_search_embedding_failure_degrades (provider : EmbeddingProvider)
    (client : SearchClient) (q : Str) (cat : Option Str) (ic : Option Int)
    (cx : Option Str) (k : Nat) (e : Str) (h : provider q = .error e) :
    create_jsx_embedding provider q = List.replicate 1536 0.0 ∧
    search_jsx_components provider client q cat ic cx k =
      search_jsx_components (fun _ => Except.ok (List.replicate 1536 0.0))
        client q cat ic cx k := by
  have he : create_jsx_embedding provider q = List.replicate 1536 0.0 := by
    simp only [create_jsx_embedding, h]
  have hz : create_jsx_embedding (fun _ => Except.ok (List.replicate 1536 (0.0 : ℚ))) q =
      List.replicate 1536 0.0 := rfl
  exact ⟨he, by simp only [search_jsx_components, he, hz]⟩

/-- C1 witness: the amended statement at a concrete failing provider. -/
theorem c1_search_embedding_failure_degrades_witness :
    failingProvider "query".toList = Except.error "embedding failure".toList ∧
    create_jsx_embedding failingProvider "query".toList = List.replicate 1536 0.0 ∧
    search_jsx_components failingProvider stubClient "query".toList none none none 5 =
      search_jsx_components (fun _ => Except.ok (List.replicate 1536 0.0))
        stubClient "query".toList none none none 5 :=
  ⟨rfl,
   (c1_search_embedding_failure_degrades failingProvider stubClient "query".toList
      none none none 5 "embedding failure".toList rfl).1,
   (c1_search_embedding_failure_degrades failingProvider stubClient "query".toList
      none none none 5 "embedding failure".toList rfl).2⟩

/-- C2 counterexample: the key sanitizer is not collision-safe — the
distinct component names a-space-b and a-underscore-b derive the same
document id. -/
theorem c2_key_collision_counterexample :
    create_safe_jsx_key "a b".toList = create_safe_jsx_key "a_b".toList ∧
    "a b".toList ≠ "a_b".toList :=
  ⟨by decide, by decide⟩

/-- C2 amended: the derived id is a pure function of the name and is
injective on names that are already in sanitized form (only characters of
the safe class, no doubled underscore, no leading or trailing underscore,
at most 100 characters); on such names distinct names derive distinct ids. -/
theorem c2_key_injective_on_canonical (n1 n2 : Str)
    (h1 : isCanonicalKey n1 = true) (h2 : isCanonicalKey n2 = true)
    (hne : n1 ≠ n2) : create_safe_jsx_key n1 ≠ create_safe_jsx_key n2 := by
  rw [create_safe_jsx_key_eq_self n1 h1, create_safe_jsx_key_eq_self n2 h2]
  exact hne

/-- C2 witness: the amended statement at two concrete canonical names. -/
theorem c2_key_injective_on_canonical_witness :
    isCanonicalKey "abc".toList = true ∧ isCanonicalKey "abd".toList = true ∧
    create_safe_jsx_key "abc".toList ≠ create_safe_jsx_key "abd".toList :=
  ⟨by decide, by decide,
   c2_key_injective_on_canonical "abc".toList "abd".toList (by decide) (by decide)
     (by decide)⟩

/-- C3 counterexample: for a text whose paragraph tag occurs before its h1
tag, the extracted hierarchy is not in scan order — the code emits h1
before p although p occurs first. -/
theorem c3_hierarchy_scan_order_counterexample :
    (analyze_text_patterns "<p><h1".toList).hierarchy ≠
      specScanHierarchy "<p><h1".toList ∧
    (analyze_text_patterns "<p><h1".toList).hierarchy = ["h1".toList, "p".toList] ∧
    specScanHierarchy "<p><h1".toList = ["p".toList, "h1".toList] :=
  ⟨by decide, by decide, by decide⟩

/-- C3 amended: the extracted text hierarchy is the subsequence of the
fixed list h1, h2, h3, p consisting of those tags that occur in the text —
check order, not scan order — with duplicates excluded. -/
theorem c3_hierarchy_fixed_order (s : Str) :
    (analyze_text_patterns s).hierarchy =
      (["h1".toList, "h2".toList, "h3".toList, "p".toList]).filter
        (fun t => hasSub ('<' :: t) s) := by
  have e1 : ('<' :: "h1".toList) = "<h1".toList := rfl
  have e2 : ('<' :: "h2".toList) = "<h2".toList := rfl
  have e3 : ('<' :: "h3".toList) = "<h3".toList := rfl
  have e4 : ('<' :: "p".toList) = "<p".toList := rfl
  simp only [analyze_text_patterns, List.filter_cons, List.filter_nil, e1, e2, e3, e4]
  cases hasSub "<h1".toList s <;> cases hasSub "<h2".toList s <;>
    cases hasSub "<h3".toList s <;> cases hasSub "<p".toList s <;> rfl

/-- C4: the image arrangement follows the exact precedence grid-keyword,
then flex-with-more-than-one-image, then count-equals-one giving single,
then count-above-three giving gallery, else multiple; in particular any
text containing grid in any case resolves to grid even when flex is also
present. -/
theorem c4_arrangement_precedence (s : Str) :
    (analyze_image_patterns s).arrangement = specArrangement s ∧
    (hasSub "grid".toList (lowerStr s) = true →
      (analyze_image_patterns s).arrangement = "grid".toList) := by
  constructor
  · rfl
  · intro h
    have h0 : (analyze_image_patterns s).arrangement = specArrangement s := rfl
    rw [h0, specArrangement, if_pos h]

/-- C4 witness: a text containing both grid and flex resolves to grid. -/
theorem c4_arrangement_precedence_witness :
    hasSub "grid".toList (lowerStr "GRID flex <img <img".toList) = true ∧
    (analyze_image_patterns "GRID flex <img <img".toList).arrangement = "grid".toList :=
  ⟨by decide, (c4_arrangement_precedence "GRID flex <img <img".toList).2 (by decide)⟩

/-- C5: the name-keyword classification (keywords image, text, mixed, card,
list, dashboard, checked in that fixed order on the lowercased name) always
wins and makes the category independent of the source text; with no
keyword and no image or heading/paragraph signal the category defaults to
mixed. -/
theorem c5_keyword_priority (name t t' : Str) :
    (∀ c, specKeywordCategory name = some c →
      classify_component_category name t = c ∧
      classify_component_category name t = classify_component_category name t') ∧
    (specKeywordCategory name = none →
      countSub "<img".toList t = 0 →
      countSub "<h1".toList t + countSub "<h2".toList t + countSub "<p".toList t = 0 →
      classify_component_category name t = "mixed".toList) := by
  constructor
  · intro c hc
    constructor <;> simp [classify_eq_keyword_or_heuristic, hc]
  · intro hn h1 h2
    rw [classify_eq_keyword_or_heuristic, hn, Option.getD_none, h1, h2]
    norm_num

/-- C5 witness: a keyword name classified without looking at the text, and
a keyword-free name on a signal-free text defaulting to mixed. -/
theorem c5_keyword_priority_witness :
    specKeywordCategory "ImageGallery".toList = some "image_focused".toList ∧
    classify_component_category "ImageGallery".toList "<p>".toList = "image_focused".toList ∧
    specKeywordCategory "Prof".toList = none ∧
    classify_component_category "Prof".toList "<div>".toList = "mixed".toList :=
  ⟨by decide,
   ((c5_keyword_priority "ImageGallery".toList "<p>".toList "<p>".toList).1
      "image_focused".toList (by decide)).1,
   by decide,
   (c5_keyword_priority "Prof".toList "<div>".toList "<div>".toList).2 (by decide)
     (by decide) (by decide)⟩

/-- C6: the complexity score is 0.5 per div container, 1.0 per image, 0.3
per inline style attribute and 0.2 per class attribute; the level is simple
below 5, moderate below 15, complex otherwise; a source with exactly four
div containers and no images, styles or classes scores 2.0, is simple, and
has nested children shape. -/
theorem c6_complexity_metadata (s category : Str) :
    complexity_score s = specComplexityScore s ∧
    (generate_component_metadata s category).complexity =
      (if complexity_score s < 5 then "simple".toList
       else if complexity_score s < 15 then "moderate".toList
       else "complex".toList) ∧
    (countSub "<div".toList s = 4 → countSub "<img".toList s = 0 →
     countSub "style=".toList s = 0 → countSub "className=".toList s = 0 →
      complexity_score s = 2 ∧
      (generate_component_metadata s category).complexity = "simple".toList ∧
      (analyze_jsx_structure s).children_structure = "nested".toList) := by
  refine ⟨?_, rfl, ?_⟩
  · rw [complexity_score, specComplexityScore]; ring
  · intro h1 h2 h3 h4
    have hs : complexity_score s = 2 := by
      rw [complexity_score, h1, h2, h3, h4]; norm_num
    refine ⟨hs, ?_, ?_⟩
    · have hm : (generate_component_metadata s category).complexity =
          (if complexity_score s < 5 then "simple".toList
           else if complexity_score s < 15 then "moderate".toList
           else "complex".toList) := rfl
      rw [hm, hs]
      norm_num
    · have hc : (analyze_jsx_structure s).children_structure =
          (if countSub "<div".toList s > 3 then "nested".toList
           else if hasSub "?".toList s ∧ hasSub ":".toList s then "conditional".toList
           else "single".toList) := rfl
      rw [hc, h1]
      norm_num

/-- C6 witness: the four-div scenario at a concrete source text. -/
theorem c6_complexity_metadata_witness :
    countSub "<div".toList "<div><div><div><div>".toList = 4 ∧
    complexity_score "<div><div><div><div>".toList = 2 ∧
    (generate_component_metadata "<div><div><div><div>".toList "mixed".toList).complexity =
      "simple".toList ∧
    (analyze_jsx_structure "<div><div><div><div>".toList).children_structure =
      "nested".toList :=
  ⟨by decide,
   ((c6_complexity_metadata "<div><div><div><div>".toList "mixed".toList).2.2
      (by decide) (by decide) (by decide) (by decide)).1,
   ((c6_complexity_metadata "<div><div><div><div>".toList "mixed".toList).2.2
      (by decide) (by decide) (by decide) (by decide)).2.1,
   ((c6_complexity_metadata "<div><div><div><div>".toList "mixed".toList).2.2
      (by decide) (by decide) (by decide) (by decide)).2.2⟩

/-- C7: the sanitizer maps the name My Component followed by two bangs and
a 2 to a string over the safe class with no doubled underscore and no
leading or trailing underscore. -/
theorem c7_sanitizer_example :
    create_safe_jsx_key "My Component!!2".toList = "My_Component_2".toList ∧
    "My_Component_2".toList.all isSafeKeyChar = true ∧
    hasDoubledUnderscore "My_Component_2".toList = false ∧
    firstIsUnderscore "My_Component_2".toList = false ∧
    firstIsUnderscore "My_Component_2".toList.reverse = false :=
  ⟨by decide, by decide, by decide, by decide, by decide⟩

/-- A source with no image tag gets arrangement grid or multiple. -/
theorem arrangement_count_zero (s : Str) (h0 : countSub "<img".toList s = 0) :
    (analyze_image_patterns s).arrangement = "grid".toList ∨
    (analyze_image_patterns s).arrangement = "multiple".toList := by
  have ha : (analyze_image_patterns s).arrangement = specArrangement s := rfl
  rw [ha, specArrangement, h0]
  by_cases hg : hasSub "grid".toList (lowerStr s) = true
  · left
    rw [if_pos hg]
  · right
    rw [if_neg hg, if_neg (fun hc => absurd hc.2 (by decide)),
      if_neg (by decide : ¬((0 : ℕ) = 1)), if_neg (by decide : ¬((0 : ℕ) > 3))]

/-- C8: a source text with no occurrence of the image-tag marker has image
count zero and its arrangement is never single and never gallery. -/
theorem c8_no_image_tag (s : Str) (h : hasSub "<img".toList s = false) :
    (analyze_image_patterns s).count = 0 ∧
    (analyze_image_patterns s).arrangement ≠ "single".toList ∧
    (analyze_image_patterns s).arrangement ≠ "gallery".toList := by
  have h0 : countSub "<img".toList s = 0 := countSub_eq_zero _ _ h
  refine ⟨h0, ?_, ?_⟩ <;>
    rcases arrangement_count_zero s h0 with ha | ha <;> rw [ha] <;> decide

/-- C8 witness: the statement at a concrete image-free source. -/
theorem c8_no_image_tag_witness :
    hasSub "<img".toList "<div>".toList = false ∧
    (analyze_image_patterns "<div>".toList).count = 0 ∧
    (analyze_image_patterns "<div>".toList).arrangement ≠ "single".toList ∧
    (analyze_image_patterns "<div>".toList).arrangement ≠ "gallery".toList :=
  ⟨by decide,
   (c8_no_image_tag "<div>".toList (by decide)).1,
   (c8_no_image_tag "<div>".toList (by decide)).2.1,
   (c8_no_image_tag "<div>".toList (by decide)).2.2⟩

/-- C9: a failing file yields no document and never aborts the batch — the
uploaded documents are exactly the successful analyses in file order, the
failure count plus the upload count equals the file count, and around a
failing file the batch outcome is the concatenation of the outcomes of the
files before and after it. -/
theorem c9_batch_failures_do_not_abort (provider : EmbeddingProvider)
    (read_file : FileReader) (folder : Str) (files pre post : List Str) (bad : Str)
    (hbad : analyze_jsx_component provider read_file (folder ++ '/' :: bad) bad = none) :
    (process_jsx_components provider read_file folder files).uploaded =
      files.filterMap
        (fun f => analyze_jsx_component provider read_file (folder ++ '/' :: f) f) ∧
    (process_jsx_components provider read_file folder files).analyze_failures +
      (process_jsx_components provider read_file folder files).uploaded.length =
        files.length ∧
    (process_jsx_components provider read_file folder (pre ++ bad :: post)).uploaded =
      (process_jsx_components provider read_file folder pre).uploaded ++
        (process_jsx_components provider read_file folder post).uploaded ∧
    (process_jsx_components provider read_file folder (pre ++ bad :: post)).analyze_failures =
      (process_jsx_components provider read_file folder pre).analyze_failures + 1 +
        (process_jsx_components provider read_file folder post).analyze_failures := by
  have hmid1 : (processLoop
      (fun f => analyze_jsx_component provider read_file (folder ++ '/' :: f) f)
      (bad :: post)).1 =
      (processLoop
        (fun f => analyze_jsx_component provider read_file (folder ++ '/' :: f) f)
        post).1 := by
    simp [processLoop, hbad]
  have hmid2 : (processLoop
      (fun f => analyze_jsx_component provider read_file (folder ++ '/' :: f) f)
      (bad :: post)).2 =
      (processLoop
        (fun f => analyze_jsx_component provider read_file (folder ++ '/' :: f) f)
        post).2 + 1 := by
    simp [processLoop, hbad]
  have hu : ∀ L : List Str, (process_jsx_components provider read_file folder L).uploaded =
      (processLoop
        (fun f => analyze_jsx_component provider read_file (folder ++ '/' :: f) f) L).1 :=
    fun _ => rfl
  have hfails : ∀ L : List Str,
      (process_jsx_components provider read_file folder L).analyze_failures =
      (processLoop
        (fun f => analyze_jsx_component provider read_file (folder ++ '/' :: f) f) L).2 :=
    fun _ => rfl
  refine ⟨processLoop_docs _ files, processLoop_count _ files, ?_, ?_⟩
  · rw [hu (pre ++ bad :: post), hu pre, hu post,
      (processLoop_append _ pre (bad :: post)).1, hmid1]
  · rw [hfails (pre ++ bad :: post), hfails pre, hfails post,
      (processLoop_append _ pre (bad :: post)).2, hmid2]
    omega

/-- C9 witness: a three-file batch whose middle file fails to read — the
two good files are still uploaded and one failure is counted. -/
theorem c9_batch_failures_do_not_abort_witness :
    analyze_jsx_component failingProvider stubReader
      ("components".toList ++ '/' :: "bad.jsx".toList) "bad.jsx".toList = none ∧
    (process_jsx_components failingProvider stubReader "components".toList
        (["good.jsx".toList] ++ "bad.jsx".toList :: ["ok.jsx".toList])).uploaded =
      (process_jsx_components failingProvider stubReader "components".toList
        ["good.jsx".toList]).uploaded ++
      (process_jsx_components failingProvider stubReader "components".toList
        ["ok.jsx".toList]).uploaded ∧
    (process_jsx_components failingProvider stubReader "components".toList
        (["good.jsx".toList] ++ "bad.jsx".toList :: ["ok.jsx".toList])).analyze_failures =
      (process_jsx_components failingProvider stubReader "components".toList
        ["good.jsx".toList]).analyze_failures + 1 +
      (process_jsx_components failingProvider stubReader "components".toList
        ["ok.jsx".toList]).analyze_failures :=
  ⟨by decide,
   (c9_batch_failures_do_not_abort failingProvider stubReader "components".toList
      (["good.jsx".toList] ++ "bad.jsx".toList :: ["ok.jsx".toList])
      ["good.jsx".toList] ["ok.jsx".toList] "bad.jsx".toList (by decide)).2.2.1,
   (c9_batch_failures_do_not_abort failingProvider stubReader "components".toList
      (["good.jsx".toList] ++ "bad.jsx".toList :: ["ok.jsx".toList])
      ["good.jsx".toList] ["ok.jsx".toList] "bad.jsx".toList (by decide)).2.2.2⟩

/-- C10: in the content-heuristic fallback, with imgs the image-tag count
and texts the h1 plus h2 plus p tag counts (h3 not counted), the category
is image focused exactly when imgs exceeds texts, otherwise text focused
exactly when texts exceeds twice imgs, otherwise mixed. -/
theorem c10_heuristic_fallback (name t : Str)
    (h : specKeywordCategory name = none) :
    classify_component_category name t =
      (if countSub "<img".toList t >
          countSub "<h1".toList t + countSub "<h2".toList t + countSub "<p".toList t then
        "image_focused".toList
       else if countSub "<h1".toList t + countSub "<h2".toList t + countSub "<p".toList t >
          2 * countSub "<img".toList t then
        "text_focused".toList
       else "mixed".toList) := by
  rw [classify_eq_keyword_or_heuristic, h, Option.getD_none]
  split_ifs <;> first | rfl | omega

/-- C10 witness: a keyword-free name on a text with one image and no
heading or paragraph tags classifies as image focused. -/
theorem c10_heuristic_fallback_witness :
    specKeywordCategory "Prof".toList = none ∧
    classify_component_category "Prof".toList "<img".toList = "image_focused".toList :=
  ⟨by decide, by
    rw [c10_heuristic_fallback "Prof".toList "<img".toList (by decide)]
    decide⟩

end JsxVector
